import Mathlib

/-!
Verification development for `UDNNewsScraper.py`, a sequential browser-driven
news scraper.  The definitions below are a shallow embedding of the scraper's
pure logic: regex-based news-ID extraction, page-count computation, link-list
truncation, the content-selector cascade with its body-text fallback, the
total-result-count parsing, the per-article loop, the top-level error-return
path, the search-workflow failure policy, and the browser-session lifecycle.
-/

/-- A scraped article record: an ordered dictionary of column-name/value pairs,
as built by `_fetch_article_content` and the article loop in `scrape`. -/
abbrev Record := List (String × String)

/-- Keys of a record, in insertion order (the dict keys pandas sees). -/
def recordKeys (r : Record) : List String := r.map Prod.fst

/-- Record appended by the article loop's `except` branch
(`UDNNewsScraper.py` lines 295-301): harvested listing title, sentinel date,
sentinel content.  Note it has no `News ID` key. -/
def loopCatchRecord (title : String) : Record :=
  [("Title", title), ("Date", "Unknown date"), ("Content", "Content extraction failed")]

/-- Outcome of the body of `_fetch_article_content`'s outer `try`: either all
four fields were produced (each possibly a sentinel), or some statement threw. -/
inductive FetchInner where
  | succeeds (newsId title date content : String)
  | throwsInner (msg : String)

/-- Embedding of `_fetch_article_content` (lines 92-176): on success it returns
the four-key dict of lines 164-169; if anything inside the outer `try` throws,
the `except` branch of lines 170-176 returns a three-key dict (no `News ID`). -/
def fetchArticleContent (index : Nat) (inner : FetchInner) : Record :=
  match inner with
  | .succeeds newsId title date content =>
    [("News ID", newsId), ("Title", title), ("Date", date), ("Content", content)]
  | .throwsInner msg =>
    [("Title", "Article " ++ toString index ++ " (processing failed)"),
     ("Date", "Unknown date"),
     ("Content", "Content extraction failed: " ++ msg)]

/-- What happens when the article loop (lines 291-302) calls
`_fetch_article_content` on one link: it returns a record, or it raises. -/
inductive FetchBehavior where
  | returns (r : Record)
  | raises (msg : String)

/-- One iteration of the article loop: the `try` appends the fetched record,
the `except` appends `loopCatchRecord` built from the harvested title. -/
def processLink (item : (String × String) × FetchBehavior) : Record :=
  match item.2 with
  | .returns r => r
  | .raises _ => loopCatchRecord item.1.1

/-- The article loop of `scrape` (lines 290-302) over the truncated link list:
each `(title, link)` pair paired with the behavior of its fetch. -/
def articleLoop : List ((String × String) × FetchBehavior) → List Record
  | [] => []
  | item :: rest => processLink item :: articleLoop rest

/-- Match of the Python regex `news_id=(\d+)` anchored at the head of `cs`:
the literal `news_id=` followed by at least one digit; the group is the
maximal digit run. -/
def newsIdHeadMatch (cs : List Char) : Option (List Char) :=
  if "news_id=".toList.isPrefixOf cs then
    if (cs.drop 8).takeWhile Char.isDigit = [] then none
    else some ((cs.drop 8).takeWhile Char.isDigit)
  else none

/-- `re.search(r'news_id=(\d+)', link)` (line 101): try the anchored match at
each position from the left, first success wins. -/
def searchNewsIdParam : List Char → Option (List Char)
  | [] => none
  | c :: rest =>
    match newsIdHeadMatch (c :: rest) with
    | some ds => some ds
    | none => searchNewsIdParam rest

/-- `re.search(r'/(\d+)$', link)` (line 106): the first position holding a `'/'`
whose entire (nonempty) remaining suffix is digits; the group is that suffix. -/
def searchTrailingDigits : List Char → Option (List Char)
  | [] => none
  | c :: rest =>
    if c = '/' ∧ rest ≠ [] ∧ rest.all Char.isDigit = true then some rest
    else searchTrailingDigits rest

/-- News-ID extraction of `_fetch_article_content` (lines 98-110): `news_id=`
query match first, then trailing `/<digits>`, else the sentinel.  Total: the
surrounding `try/except` can never fire in this pure translation. -/
def extractNewsId (link : String) : String :=
  match searchNewsIdParam link.toList with
  | some ds => String.mk ds
  | none =>
    match searchTrailingDigits link.toList with
    | some ds => String.mk ds
    | none => "Unknown ID"

/-- Proposition: the regex `news_id=(\d+)` matches at position `i` of `cs`. -/
def paramMatchAt (cs : List Char) (i : Nat) : Prop :=
  "news_id=".toList.isPrefixOf (cs.drop i) = true ∧
    (cs.drop (i + 8)).takeWhile Char.isDigit ≠ []

instance (cs : List Char) (i : Nat) : Decidable (paramMatchAt cs i) := by
  unfold paramMatchAt; infer_instance

/-- `math.ceil(total_results / 20)` (line 252), the fixed 20-items-per-page
result-count to page-count conversion. -/
def totalPages (totalResults : Nat) : Nat := (totalResults + 19) / 20

/-- Number of result pages the loop of lines 263-284 visits: the page count of
line 252, clamped by lines 254-255 only when `max_pages` is not `None` and is
strictly positive. -/
def pagesVisited (totalResults : Nat) (maxPages : Option Int) : Nat :=
  match maxPages with
  | none => totalPages totalResults
  | some m => if 0 < m then min m.toNat (totalPages totalResults) else totalPages totalResults

/-- Python list slice `xs[:stop]` with an integer stop: a nonnegative stop takes
that many elements from the front; a negative stop drops `|stop|` elements from
the end (clamped at the empty list). -/
def pySliceStop {α : Type} (xs : List α) (stop : Int) : List α :=
  if 0 ≤ stop then xs.take stop.toNat
  else xs.take (xs.length - (-stop).toNat)

/-- Link-list truncation of line 287:
`news_links = news_links[:min(len(news_links), max_articles)]`. -/
def truncateLinks {α : Type} (links : List α) (maxArticles : Int) : List α :=
  pySliceStop links (min (links.length : Int) maxArticles)

/-- A DOM element as far as the content extractor sees it: the text of each of
its `<p>` descendants, in document order. -/
structure Element where
  paragraphs : List String

/-- The slice of an article page read by the content-extraction cascade of
lines 133-160: the element lists matched by each of the four XPath selectors,
plus the full `<body>` text used by the fallback. -/
structure ArticlePage where
  articleTag : List Element
  classArticle : List Element
  classContent : List Element
  classStory : List Element
  bodyText : String

/-- Content produced from one selector's match list (lines 144-151): take the
first matched element, join its nonempty paragraph texts with newlines; an
empty match list contributes the empty string. -/
def selectorContent (els : List Element) : String :=
  match els with
  | [] => ""
  | e :: _ => String.intercalate "\n" (e.paragraphs.filter (fun s => s ≠ ""))

/-- The selector loop of lines 142-153: first selector producing nonempty
content wins; otherwise the result stays empty. -/
def extractContentLoop : List (List Element) → String
  | [] => ""
  | sel :: rest =>
    if selectorContent sel = "" then extractContentLoop rest else selectorContent sel

/-- The literal alternatives of the cleanup regex on line 160, in pattern
order. -/
def navKeywords : List String :=
  ["Login", "Register", "Member", "Home", "News", "Sports", "Entertainment", "Finance", "Health"]

/-- `re.sub(r'(Login|Register|Member|Home|News|Sports|Entertainment|Finance|Health)', '', s)`:
scan left to right; at each position remove the first alternative that matches
literally, else keep the character. -/
def stripNavTokens : List Char → List Char
  | [] => []
  | c :: rest =>
    match h : navKeywords.find? (fun w => w.toList.isPrefixOf (c :: rest)) with
    | some w => stripNavTokens ((c :: rest).drop w.toList.length)
    | none => c :: stripNavTokens rest
termination_by cs => cs.length
decreasing_by
  · simp only [List.length_drop, List.length_cons]
    have hw : w ∈ navKeywords := List.mem_of_find?_eq_some h
    have h1 : 1 ≤ w.toList.length := by
      simp only [navKeywords, List.mem_cons, List.not_mem_nil, or_false] at hw
      rcases hw with rfl | rfl | rfl | rfl | rfl | rfl | rfl | rfl | rfl <;> decide
    omega
  · simp only [List.length_cons]
    omega

/-- Content extraction of lines 133-160: the four-selector cascade in fixed
order (`//article`; class containing `article`; `content`; `story`), and, when
all four yield empty content, the body-text fallback with the navigation
keywords stripped. -/
def extractContent (page : ArticlePage) : String :=
  if extractContentLoop [page.articleTag, page.classArticle, page.classContent, page.classStory] = ""
  then String.mk (stripNavTokens page.bodyText.toList)
  else extractContentLoop [page.articleTag, page.classArticle, page.classContent, page.classStory]

/-- ASCII fragment of Python's `\s` character class, enough for this page
marker. -/
def isPySpace (c : Char) : Bool :=
  c == ' ' || c == '\t' || c == '\n' || c == '\r' || c == '\x0B' || c == '\x0C'

/-- Numeric value of a digit run. -/
def digitsToNat (ds : List Char) : Nat :=
  ds.foldl (fun n c => n * 10 + (c.toNat - '0'.toNat)) 0

/-- Match of the total-count regex of line 250 anchored at the head of `cs`:
`共搜尋到\s*<span class="mark">(\d+)</span>筆資料`. -/
def totalMatchAt (cs : List Char) : Option Nat :=
  if "共搜尋到".toList.isPrefixOf cs then
    if "<span class=\"mark\">".toList.isPrefixOf
        ((cs.drop "共搜尋到".toList.length).dropWhile isPySpace) then
      if ((cs.drop "共搜尋到".toList.length).dropWhile isPySpace
            |>.drop "<span class=\"mark\">".toList.length).takeWhile Char.isDigit = [] then none
      else
        if "</span>筆資料".toList.isPrefixOf
            (((cs.drop "共搜尋到".toList.length).dropWhile isPySpace
                |>.drop "<span class=\"mark\">".toList.length).drop
              ((((cs.drop "共搜尋到".toList.length).dropWhile isPySpace
                  |>.drop "<span class=\"mark\">".toList.length).takeWhile Char.isDigit).length)) then
          some (digitsToNat (((cs.drop "共搜尋到".toList.length).dropWhile isPySpace
              |>.drop "<span class=\"mark\">".toList.length).takeWhile Char.isDigit))
        else none
    else none
  else none

/-- `re.search` of the total-count regex over the raw `driver.page_source`
(line 250): try the anchored match at every position, left to right. -/
def parseTotalResults : List Char → Option Nat
  | [] => none
  | c :: rest =>
    match totalMatchAt (c :: rest) with
    | some n => some n
    | none => parseTotalResults rest

/-- Lines 248-251 of `scrape`: first wait for the `//div[@class='message']`
element (a timeout there raises out of this step); only then run the regex over
the page source, defaulting the total to `0` when the marker is absent. -/
def getTotalResults (messageDivPresent : Bool) (pageSource : String) : Except String Nat :=
  if messageDivPresent then
    Except.ok ((parseTotalResults pageSource.toList).getD 0)
  else Except.error "TimeoutException: result message element not found"

/-- The pandas DataFrame as this program observes it: a column list and the
row records. -/
structure DataFrame where
  columns : List String
  rows : List Record
deriving DecidableEq

/-- Append the keys of one record that are not yet known columns. -/
def addKeys (acc : List String) (ks : List String) : List String :=
  ks.foldl (fun a k => if a.contains k then a else a ++ [k]) acc

/-- Column inference of `pd.DataFrame(list_of_dicts)`: union of the records'
keys in order of first appearance. -/
def unionKeys (rows : List Record) : List String :=
  rows.foldl (fun acc r => addKeys acc (recordKeys r)) []

/-- `pd.DataFrame(news_data)`. -/
def dataFrameOfRecords (rows : List Record) : DataFrame :=
  ⟨unionKeys rows, rows⟩

/-- The `except` branch of `scrape` (lines 315-323): with collected records,
build their DataFrame, write it to the output file when one was supplied, and
return it; with no records, return `pd.DataFrame(columns=['Title', 'Date',
'Content'])` and write nothing.  The first component is the returned frame, the
second the file write (path and content) if any. -/
def scrapeErrorReturn (newsData : List Record) (outputFile : Option String) :
    DataFrame × Option (String × DataFrame) :=
  if newsData.isEmpty then (⟨["Title", "Date", "Content"], []⟩, none)
  else
    (dataFrameOfRecords newsData,
      outputFile.map (fun p => (p, dataFrameOfRecords newsData)))

/-- Outcome of one browser-interaction step. -/
inductive StepResult where
  | ok
  | err (msg : String)
deriving DecidableEq

/-- The environment's behavior for each step of the search workflow of
lines 202-245: portal navigation, the institutional-login trigger, the
re-navigation, the three form fields, and the submit click. -/
structure SearchWorld where
  navigate : StepResult
  login : StepResult
  renavigate : StepResult
  keyword : StepResult
  startDate : StepResult
  endDate : StepResult
  submit : StepResult
deriving DecidableEq

/-- A step outside any inner `try`: its exception propagates. -/
def fatalStep (r : StepResult) (k : Except String Unit) : Except String Unit :=
  match r with
  | .ok => k
  | .err m => Except.error m

/-- The search workflow of lines 202-245 inside `scrape`'s big `try`: every
step propagates its exception except the login trigger, whose lines 208-218
catch the error, log it, and continue. -/
def searchPhase (w : SearchWorld) : Except String Unit :=
  fatalStep w.navigate
    (match fatalStep w.login (Except.ok ()) with
     | .ok _ =>
       fatalStep w.renavigate
         (fatalStep w.keyword
           (fatalStep w.startDate
             (fatalStep w.endDate (fatalStep w.submit (Except.ok ())))))
     | .error _ =>
       fatalStep w.renavigate
         (fatalStep w.keyword
           (fatalStep w.startDate
             (fatalStep w.endDate (fatalStep w.submit (Except.ok ()))))))

/-- What the rest of `scrape`'s `try` body (pagination, harvesting, article
loop, normal return) does once the search phase succeeded: it either runs to
completion with the final `news_data`, or raises with the records collected so
far. -/
inductive BodyRest where
  | completes (data : List Record)
  | aborts (collected : List Record) (msg : String)

/-- `scrape` from the search phase to its return value (lines 202-323): the
big `try` around the whole body, the normal-completion return of lines 304-313,
and the `except Exception` handler of lines 315-323 which converts any escaped
error into a normal return.  A `.error` result would mean an exception
propagates to `scrape`'s caller. -/
def scrapeRunE (w : SearchWorld) (rest : BodyRest) (outputFile : Option String) :
    Except String (DataFrame × Option (String × DataFrame)) :=
  match searchPhase w with
  | .error _ => Except.ok (scrapeErrorReturn [] outputFile)
  | .ok _ =>
    match rest with
    | .completes data =>
      if data.isEmpty then Except.ok (⟨["Title", "Date", "Content"], []⟩, none)
      else
        Except.ok (dataFrameOfRecords data,
          outputFile.map (fun p => (p, dataFrameOfRecords data)))
    | .aborts collected _ => Except.ok (scrapeErrorReturn collected outputFile)

/-- Scraper instance state for the driver lifecycle: whether `self.driver`
holds an object (it is assigned in `scrape` and never reset to `None`), and how
many times `driver.quit()` has been invoked. -/
structure ScraperState where
  driverSet : Bool
  quitCalls : Nat

/-- `self.driver, ... = self._setup_driver()` (line 195). -/
def setupDriver (s : ScraperState) : ScraperState := { s with driverSet := true }

/-- `self.driver.quit()`: one more quit invocation; `self.driver` keeps its
reference. -/
def driverQuit (s : ScraperState) : ScraperState := { s with quitCalls := s.quitCalls + 1 }

/-- The `finally` block of `scrape` (lines 325-328). -/
def scrapeFinally (s : ScraperState) : ScraperState :=
  if s.driverSet then driverQuit s else s

/-- `close` (lines 330-334): same guard, same quit. -/
def closeScraper (s : ScraperState) : ScraperState :=
  if s.driverSet then driverQuit s else s

/-- How a `scrape` call ends: normal completion, the handler's best-effort
return after a mid-run error, or an error thrown before any article. -/
inductive ExitPath where
  | normal
  | failureReturn
  | earlyThrow

/-- Driver lifecycle of one `scrape` call: setup at line 195, then the body
takes one of the exit paths, and the `finally` block runs on every one. -/
def scrapeLifecycle (s : ScraperState) (p : ExitPath) : ScraperState :=
  match p with
  | .normal => scrapeFinally (setupDriver s)
  | .failureReturn => scrapeFinally (setupDriver s)
  | .earlyThrow => scrapeFinally (setupDriver s)

/-! Helper lemmas about the news-ID regex embedding. -/

/-- Shifting an anchored-match position across a cons cell. -/
theorem paramMatchAt_cons (c : Char) (rest : List Char) (i : Nat) :
    paramMatchAt (c :: rest) (i + 1) ↔ paramMatchAt rest i := by
  unfold paramMatchAt
  have h9 : i + 1 + 8 = (i + 8) + 1 := by omega
  rw [h9, List.drop_succ_cons, List.drop_succ_cons]

/-- A match at the head makes `newsIdHeadMatch` return the digit run. -/
theorem newsIdHeadMatch_eq_some (cs : List Char) (h : paramMatchAt cs 0) :
    newsIdHeadMatch cs = some ((cs.drop 8).takeWhile Char.isDigit) := by
  obtain ⟨h1, h2⟩ := h
  rw [List.drop_zero] at h1
  rw [Nat.zero_add] at h2
  unfold newsIdHeadMatch
  rw [if_pos h1, if_neg h2]

/-- No match at the head makes `newsIdHeadMatch` return `none`. -/
theorem newsIdHeadMatch_eq_none (cs : List Char) (h : ¬ paramMatchAt cs 0) :
    newsIdHeadMatch cs = none := by
  unfold newsIdHeadMatch
  by_cases h1 : "news_id=".toList.isPrefixOf cs = true
  · rw [if_pos h1]
    by_cases h2 : (cs.drop 8).takeWhile Char.isDigit = []
    · rw [if_pos h2]
    · exact absurd ⟨by simpa using h1, by simpa using h2⟩ h
  · rw [if_neg h1]

/-- The left-to-right scan returns the digit run of the leftmost match. -/
theorem searchNewsIdParam_eq_least (cs : List Char) :
    ∀ i : Nat, paramMatchAt cs i → (∀ j, j < i → ¬ paramMatchAt cs j) →
      searchNewsIdParam cs = some ((cs.drop (i + 8)).takeWhile Char.isDigit) := by
  induction cs with
  | nil =>
    intro i h _
    obtain ⟨h1, _⟩ := h
    rw [List.drop_nil] at h1
    exact absurd h1 (by decide)
  | cons c rest ih =>
    intro i h hleast
    cases i with
    | zero =>
      have hm := newsIdHeadMatch_eq_some (c :: rest) h
      simp only [searchNewsIdParam, hm]
    | succ i =>
      have h0 : ¬ paramMatchAt (c :: rest) 0 := hleast 0 (Nat.succ_pos i)
      have hm := newsIdHeadMatch_eq_none (c :: rest) h0
      simp only [searchNewsIdParam, hm]
      have hmatch : paramMatchAt rest i := (paramMatchAt_cons c rest i).mp h
      have hleast2 : ∀ j, j < i → ¬ paramMatchAt rest j := fun j hj hp =>
        hleast (j + 1) (by omega) ((paramMatchAt_cons c rest j).mpr hp)
      rw [ih i hmatch hleast2]
      have hdrop : (c :: rest).drop (i + 1 + 8) = rest.drop (i + 8) := by
        have h9 : i + 1 + 8 = (i + 8) + 1 := by omega
        rw [h9, List.drop_succ_cons]
      rw [hdrop]

/-- With no match anywhere the scan returns `none`. -/
theorem searchNewsIdParam_eq_none (cs : List Char)
    (h : ∀ i, ¬ paramMatchAt cs i) : searchNewsIdParam cs = none := by
  induction cs with
  | nil => rfl
  | cons c rest ih =>
    have hm := newsIdHeadMatch_eq_none (c :: rest) (h 0)
    simp only [searchNewsIdParam, hm]
    exact ih (fun i hp => h (i + 1) ((paramMatchAt_cons c rest i).mpr hp))

/-- A string ending in `/<digits>` makes the trailing-digits regex return
exactly those digits. -/
theorem searchTrailingDigits_append (pre ds : List Char) (hne : ds ≠ [])
    (hd : ds.all Char.isDigit = true) :
    searchTrailingDigits (pre ++ '/' :: ds) = some ds := by
  induction pre with
  | nil =>
    simp [searchTrailingDigits, hne, hd]
  | cons p pre ih =>
    simp only [List.cons_append, searchTrailingDigits]
    have hmem : '/' ∈ pre ++ '/' :: ds := List.mem_append_right _ (List.mem_cons_self _ _)
    have hfalse : ¬ ((pre ++ '/' :: ds).all Char.isDigit = true) := by
      intro hall
      exact absurd ((List.all_eq_true.mp hall) _ hmem) (by decide)
    rw [if_neg (fun hc => hfalse hc.2.2)]
    exact ih

/-- A successful trailing-digits match decomposes the string. -/
theorem searchTrailingDigits_some_inv (cs ds : List Char)
    (h : searchTrailingDigits cs = some ds) :
    ∃ pre, cs = pre ++ '/' :: ds ∧ ds ≠ [] ∧ ds.all Char.isDigit = true := by
  induction cs with
  | nil => simp [searchTrailingDigits] at h
  | cons c rest ih =>
    simp only [searchTrailingDigits] at h
    by_cases hc : c = '/' ∧ rest ≠ [] ∧ rest.all Char.isDigit = true
    · rw [if_pos hc] at h
      obtain rfl : rest = ds := Option.some.inj h
      exact ⟨[], by rw [hc.1, List.nil_append], hc.2.1, hc.2.2⟩
    · rw [if_neg hc] at h
      obtain ⟨pre, heq, h1, h2⟩ := ih h
      exact ⟨c :: pre, by rw [heq, List.cons_append], h1, h2⟩

/-- C3: for every article URL the extracted News ID is the digit run of the
leftmost `news_id=` match when one exists; otherwise the digits of a trailing
`/<digits>` segment when the URL ends that way; otherwise the sentinel
`"Unknown ID"`.  The extraction is a total function, so no error can
propagate.  The three spec examples are included. -/
theorem extractNewsId_spec : ∀ link : String,
    (∀ i : Nat, paramMatchAt link.toList i → (∀ j, j < i → ¬ paramMatchAt link.toList j) →
      extractNewsId link = String.mk ((link.toList.drop (i + 8)).takeWhile Char.isDigit)) ∧
    ((∀ i, ¬ paramMatchAt link.toList i) →
      ∀ pre ds, link.toList = pre ++ '/' :: ds → ds ≠ [] → ds.all Char.isDigit = true →
        extractNewsId link = String.mk ds) ∧
    ((∀ i, ¬ paramMatchAt link.toList i) →
      (∀ pre ds, link.toList = pre ++ '/' :: ds → ds ≠ [] → ¬ (ds.all Char.isDigit = true)) →
      extractNewsId link = "Unknown ID") ∧
    extractNewsId "https://udndata.com/ndapp/Index?news_id=12345&x=y" = "12345" ∧
    extractNewsId "https://udndata.com/NewsPage/archive/67890" = "67890" ∧
    extractNewsId "https://udndata.com/ndapp/Index?cp=udn" = "Unknown ID" := by
  intro link
  refine ⟨?_, ?_, ?_, by decide, by decide, by decide⟩
  · intro i hi hleast
    unfold extractNewsId
    rw [searchNewsIdParam_eq_least link.toList i hi hleast]
  · intro hnone pre ds heq hne hd
    unfold extractNewsId
    rw [searchNewsIdParam_eq_none link.toList hnone, heq,
      searchTrailingDigits_append pre ds hne hd]
  · intro hnone htrail
    unfold extractNewsId
    rw [searchNewsIdParam_eq_none link.toList hnone]
    cases hsd : searchTrailingDigits link.toList with
    | none => rfl
    | some ds =>
      obtain ⟨pre, heq, h1, h2⟩ := searchTrailingDigits_some_inv _ _ hsd
      exact absurd h2 (htrail pre ds heq h1)

/-- C3 witness: the `news_id=` arm applied at a concrete URL whose leftmost
match sits at position 15. -/
theorem extractNewsId_spec_witness :
    extractNewsId "http://a.com/x?news_id=77" = "77" := by
  have h := (extractNewsId_spec "http://a.com/x?news_id=77").1 15 (by decide) (by decide)
  exact h.trans (by decide)

/-- C2 counterexample: the claim's formula `min(max_pages_or_infinity,
ceil(total_results/20))` predicts `min 0 3 = 0` visited pages for
`total_results = 45` and `max_pages = 0`, but the guard on line 254 skips the
clamp for non-positive `max_pages`, so the code visits 3 pages. -/
theorem pagesVisited_zero_cap_cx :
    pagesVisited 45 (some 0) = 3 ∧ min (0 : Int) 3 = 0 := by decide

/-- C2 (amended): `ceil(total_results/20)` pages are computed (characterized
as the least `k` with `total_results ≤ 20 * k`), and the caller-supplied
`max_pages` clamps that count only when it is not `None` and strictly
positive; for `None`, zero or negative values the full page count is visited.
The spec examples `45/None = 3` and `45/2 = 2` hold. -/
theorem pagesVisited_spec : ∀ totalResults : Nat,
    (totalResults ≤ 20 * totalPages totalResults ∧
      ∀ k, totalResults ≤ 20 * k → totalPages totalResults ≤ k) ∧
    pagesVisited totalResults none = totalPages totalResults ∧
    (∀ m : Int, 0 < m →
      pagesVisited totalResults (some m) = min m.toNat (totalPages totalResults)) ∧
    (∀ m : Int, m ≤ 0 → pagesVisited totalResults (some m) = totalPages totalResults) ∧
    pagesVisited 45 none = 3 ∧ pagesVisited 45 (some 2) = 2 := by
  intro tr
  refine ⟨⟨?_, ?_⟩, rfl, ?_, ?_, by decide, by decide⟩
  · unfold totalPages; omega
  · intro k hk; unfold totalPages; omega
  · intro m hm; simp only [pagesVisited, if_pos hm]
  · intro m hm; simp only [pagesVisited]; rw [if_neg (by omega)]

/-- C2 witness: the positive-clamp arm of `pagesVisited_spec` at
`total_results = 45`, `max_pages = 2`. -/
theorem pagesVisited_spec_witness :
    pagesVisited 45 (some 2) = min (Int.toNat 2) (totalPages 45) ∧ (0 : Int) < 2 :=
  ⟨(pagesVisited_spec 45).2.2.1 2 (by decide), by decide⟩

/-- C4 counterexample: with two harvested links and `max_articles = -1`,
Python's negative slice keeps one element, so the truncated length 1 is not
at most `max_articles = -1`; the claim fails for negative `max_articles`. -/
theorem truncateLinks_negative_cx :
    truncateLinks [("t1", "l1"), ("t2", "l2")] (-1) = [("t1", "l1")] ∧
    ¬ ((1 : Int) ≤ -1) := by decide

/-- C4 (amended): the truncated list is always a prefix of the harvested list
(earliest-found links kept, in order); the length bound
`length ≤ max_articles` holds for every nonnegative `max_articles` (the
default 50 included), but not for negative values, where the negative slice
stop drops elements from the end instead. -/
theorem truncateLinks_spec :
    ∀ (links : List (String × String)) (m : Int),
      (∃ t, links = truncateLinks links m ++ t) ∧
      (0 ≤ m → (truncateLinks links m).length ≤ m.toNat ∧
        truncateLinks links m = links.take (min links.length m.toNat)) := by
  intro links m
  constructor
  · unfold truncateLinks pySliceStop
    split
    · exact ⟨links.drop _, (List.take_append_drop _ _).symm⟩
    · exact ⟨links.drop _, (List.take_append_drop _ _).symm⟩
  · intro hm
    have h0 : 0 ≤ min (links.length : Int) m := le_min (Int.natCast_nonneg _) hm
    unfold truncateLinks pySliceStop
    rw [if_pos h0]
    have harg : (min (links.length : Int) m).toNat = min links.length m.toNat := by omega
    rw [harg]
    refine ⟨?_, rfl⟩
    rw [List.length_take]
    omega

/-- C4 witness: the nonnegative arm of `truncateLinks_spec` at three links and
`max_articles = 2`. -/
theorem truncateLinks_spec_witness :
    (truncateLinks [("t1", "l1"), ("t2", "l2"), ("t3", "l3")] 2).length ≤ (2 : Int).toNat ∧
    truncateLinks [("t1", "l1"), ("t2", "l2"), ("t3", "l3")] 2 =
      [("t1", "l1"), ("t2", "l2"), ("t3", "l3")].take (min 3 (Int.toNat 2)) :=
  (truncateLinks_spec [("t1", "l1"), ("t2", "l2"), ("t3", "l3")] 2).2 (by decide)

/-- C5: per-article isolation in the article loop of lines 290-302.  The loop
produces exactly one record per attempted link; it is pointwise, so an item
whose fetch raises never affects the records of the links before or after it;
and a raising item is converted at the loop boundary into the catch record
(harvested title plus sentinel date and content). -/
theorem articleLoop_isolation :
    (∀ items, (articleLoop items).length = items.length) ∧
    (∀ pre item post,
      articleLoop (pre ++ item :: post) =
        articleLoop pre ++ processLink item :: articleLoop post) ∧
    (∀ title link msg,
      processLink ((title, link), FetchBehavior.raises msg) = loopCatchRecord title) := by
  refine ⟨?_, ?_, fun _ _ _ => rfl⟩
  · intro items
    induction items with
    | nil => rfl
    | cons a t ih => simp [articleLoop, ih]
  · intro pre item post
    induction pre with
    | nil => rfl
    | cons a t ih => simp [articleLoop, ih]

/-- C6: the content cascade tries the four selectors in the fixed order
(article tag, class `article`, class `content`, class `story`), the first
nonempty joined-paragraph content wins, and only when all four are empty does
the body-text fallback with the stripped navigation keywords apply; in
particular a page where only the `story` selector has nonempty paragraphs
yields that selector's joined paragraphs. -/
theorem extractContent_cascade : ∀ page : ArticlePage,
    (selectorContent page.articleTag ≠ "" →
      extractContent page = selectorContent page.articleTag) ∧
    (selectorContent page.articleTag = "" → selectorContent page.classArticle ≠ "" →
      extractContent page = selectorContent page.classArticle) ∧
    (selectorContent page.articleTag = "" → selectorContent page.classArticle = "" →
      selectorContent page.classContent ≠ "" →
      extractContent page = selectorContent page.classContent) ∧
    (selectorContent page.articleTag = "" → selectorContent page.classArticle = "" →
      selectorContent page.classContent = "" → selectorContent page.classStory ≠ "" →
      extractContent page = selectorContent page.classStory) ∧
    (selectorContent page.articleTag = "" → selectorContent page.classArticle = "" →
      selectorContent page.classContent = "" → selectorContent page.classStory = "" →
      extractContent page = String.mk (stripNavTokens page.bodyText.toList)) := by
  intro page
  refine ⟨?_, ?_, ?_, ?_, ?_⟩ <;> intros <;> simp_all [extractContent, extractContentLoop]

/-- C6 witness: a page where the first three selectors yield empty content
(the second has an element whose only paragraph text is empty) and the `story`
selector has two paragraphs; the cascade returns their newline join, not the
body-text fallback. -/
theorem extractContent_cascade_witness :
    extractContent ⟨[], [⟨[""]⟩], [], [⟨["p1", "p2"]⟩], "Login body"⟩ = "p1\np2" := by
  have h := (extractContent_cascade ⟨[], [⟨[""]⟩], [], [⟨["p1", "p2"]⟩], "Login body"⟩).2.2.2.1
    (by decide) (by decide) (by decide) (by decide)
  exact h.trans (by decide)

/-- C7 counterexample: a results page whose rendered HTML lacks the marker and
whose `//div[@class='message']` element is absent does not yield total 0: the
wait on line 248 times out, so this step raises and the scrape takes the
error path instead of proceeding with zero pages. -/
theorem getTotalResults_missing_div_cx :
    parseTotalResults "<html></html>".toList = none ∧
    getTotalResults false "<html></html>" =
      Except.error "TimeoutException: result message element not found" := ⟨rfl, rfl⟩

/-- C7 (amended): the total-result count is parsed by pattern-matching the raw
page source (markup included), but only after the message element is found;
given that element, an absent marker yields total 0 and a present marker
yields its number.  The concrete conjunct shows the marker being matched
inside HTML tags. -/
theorem getTotalResults_spec : ∀ src : String,
    (parseTotalResults src.toList = none → getTotalResults true src = Except.ok 0) ∧
    (∀ n, parseTotalResults src.toList = some n → getTotalResults true src = Except.ok n) ∧
    parseTotalResults
        "<div class=\"message\">共搜尋到 <span class=\"mark\">45</span>筆資料</div>".toList =
      some 45 := by
  intro src
  refine ⟨?_, ?_, by decide⟩
  · intro h
    show Except.ok ((parseTotalResults src.toList).getD 0) = Except.ok 0
    rw [h]
    rfl
  · intro n h
    show Except.ok ((parseTotalResults src.toList).getD 0) = Except.ok n
    rw [h]
    rfl

/-- C7 witness: the marker-absent arm of `getTotalResults_spec` on a page that
does contain the message element. -/
theorem getTotalResults_spec_witness :
    getTotalResults true "<html><body>no marker</body></html>" = Except.ok 0 :=
  (getTotalResults_spec "<html><body>no marker</body></html>").1 (by decide)

/-- C8: the `finally` block tears the driver down exactly once on each exit
path of `scrape`, but `self.driver` is never reset to `None`, so the guard in
`close` cannot detect the already-closed browser: calling `close()` after a
completed `scrape()` invokes `driver.quit()` a second time for the same
`start`, contradicting the documented idempotent close
("Close the browser if still open"). -/
theorem close_after_scrape_quits_again :
    (∀ (s : ScraperState) (p : ExitPath),
      (scrapeLifecycle s p).quitCalls = s.quitCalls + 1 ∧
      (scrapeLifecycle s p).driverSet = true) ∧
    (closeScraper (scrapeLifecycle ⟨false, 0⟩ ExitPath.normal)).quitCalls = 2 := by
  constructor
  · intro s p
    cases p <;> exact ⟨rfl, rfl⟩
  · rfl

/-- C9 counterexample: a failure while populating the keyword field does not
raise to the caller of `scrape`: the top-level handler of lines 315-323
absorbs it and `scrape` returns normally with the empty three-column table. -/
theorem scrape_search_failure_cx :
    scrapeRunE
        ⟨StepResult.ok, StepResult.ok, StepResult.ok, StepResult.err "NoSuchElementException",
          StepResult.ok, StepResult.ok, StepResult.ok⟩
        (BodyRest.completes [[("Title", "t"), ("Date", "d"), ("Content", "c")]]) none =
      Except.ok (⟨["Title", "Date", "Content"], []⟩, none) := rfl

/-- The search phase succeeds exactly when all six fatal steps succeed; the
login trigger's outcome is irrelevant. -/
theorem searchPhase_ok_iff (w : SearchWorld) :
    searchPhase w = Except.ok () ↔
      (w.navigate = StepResult.ok ∧ w.renavigate = StepResult.ok ∧
        w.keyword = StepResult.ok ∧ w.startDate = StepResult.ok ∧
        w.endDate = StepResult.ok ∧ w.submit = StepResult.ok) := by
  rcases w with ⟨nav, lg, rnav, kw, sd, ed, sb⟩
  cases nav <;> cases lg <;> cases rnav <;> cases kw <;> cases sd <;> cases ed <;> cases sb <;>
    simp [searchPhase, fatalStep]

/-- C9 (amended): a failure in any step through search submission (navigation,
re-navigation, keyword field, date fields, submit click) aborts the whole
scrape — the rest of the body never runs and the empty table is returned via
the top-level handler — but it is caught there, not raised to `scrape`'s
caller; the institutional-login trigger's outcome never changes the result. -/
theorem scrape_search_failure_policy :
    ∀ (w : SearchWorld) (rest : BodyRest) (outputFile : Option String),
      ((w.navigate ≠ StepResult.ok ∨ w.renavigate ≠ StepResult.ok ∨
          w.keyword ≠ StepResult.ok ∨ w.startDate ≠ StepResult.ok ∨
          w.endDate ≠ StepResult.ok ∨ w.submit ≠ StepResult.ok) →
        scrapeRunE w rest outputFile =
          Except.ok (⟨["Title", "Date", "Content"], []⟩, none)) ∧
      (∀ r : StepResult,
        scrapeRunE { w with login := r } rest outputFile =
          scrapeRunE { w with login := StepResult.ok } rest outputFile) := by
  intro w rest outputFile
  constructor
  · intro h
    cases hsp : searchPhase w with
    | error m =>
      simp only [scrapeRunE, hsp]
      rfl
    | ok u =>
      cases u
      rcases (searchPhase_ok_iff w).mp hsp with ⟨h1, h2, h3, h4, h5, h6⟩
      rcases h with h | h | h | h | h | h
      · exact absurd h1 h
      · exact absurd h2 h
      · exact absurd h3 h
      · exact absurd h4 h
      · exact absurd h5 h
      · exact absurd h6 h
  · intro r
    cases r <;> rfl

/-- C9 witness: the fatal arm of `scrape_search_failure_policy` at a world
whose submit click fails. -/
theorem scrape_search_failure_policy_witness :
    scrapeRunE
        ⟨StepResult.ok, StepResult.ok, StepResult.ok, StepResult.ok, StepResult.ok,
          StepResult.ok, StepResult.err "submit click failed"⟩
        (BodyRest.completes []) none =
      Except.ok (⟨["Title", "Date", "Content"], []⟩, none) :=
  (scrape_search_failure_policy
    ⟨StepResult.ok, StepResult.ok, StepResult.ok, StepResult.ok, StepResult.ok,
      StepResult.ok, StepResult.err "submit click failed"⟩
    (BodyRest.completes []) none).1 (by decide)

/-- C10: both failure records lack the `News ID` key entirely: the
`_fetch_article_content` outer catch yields
`{Title: "Article {index} (processing failed)", Date: "Unknown date",
Content: "Content extraction failed: ..."}` and the loop-level catch yields
the harvested title with the same sentinels; a success record carries the
four-key schema, so a result set mixing them does not carry `News ID`
uniformly. -/
theorem failure_records_lack_news_id :
    ∀ (index : Nat) (msg title newsId t d c : String),
      recordKeys (fetchArticleContent index (FetchInner.throwsInner msg)) =
        ["Title", "Date", "Content"] ∧
      "News ID" ∉ recordKeys (fetchArticleContent index (FetchInner.throwsInner msg)) ∧
      (fetchArticleContent index (FetchInner.throwsInner msg)).lookup "Title" =
        some ("Article " ++ toString index ++ " (processing failed)") ∧
      (fetchArticleContent index (FetchInner.throwsInner msg)).lookup "Date" =
        some "Unknown date" ∧
      (fetchArticleContent index (FetchInner.throwsInner msg)).lookup "Content" =
        some ("Content extraction failed: " ++ msg) ∧
      recordKeys (loopCatchRecord title) = ["Title", "Date", "Content"] ∧
      "News ID" ∉ recordKeys (loopCatchRecord title) ∧
      (loopCatchRecord title).lookup "Title" = some title ∧
      (loopCatchRecord title).lookup "Date" = some "Unknown date" ∧
      (loopCatchRecord title).lookup "Content" = some "Content extraction failed" ∧
      recordKeys (fetchArticleContent index (FetchInner.succeeds newsId t d c)) =
        ["News ID", "Title", "Date", "Content"] := by
  intro index msg title newsId t d c
  refine ⟨rfl, ?_, rfl, rfl, rfl, rfl, ?_, rfl, rfl, rfl, rfl⟩
  · show "News ID" ∉ (["Title", "Date", "Content"] : List String)
    decide
  · show "News ID" ∉ (["Title", "Date", "Content"] : List String)
    decide

/-- C1 counterexample: on the error path with no collected records, `scrape`
returns `pd.DataFrame(columns=['Title', 'Date', 'Content'])` (line 323): the
empty table's columns are not the claimed four-column schema — `News ID` is
missing. -/
theorem scrape_error_empty_schema_cx :
    (scrapeErrorReturn [] none).1.columns = ["Title", "Date", "Content"] ∧
    (scrapeErrorReturn [] none).1.columns ≠ ["News ID", "Title", "Date", "Content"] := by
  exact ⟨rfl, by decide⟩

/-- C1 (amended): when an unhandled error aborts the scrape after records were
collected, the handler returns exactly those records as a DataFrame and writes
that same DataFrame to the output file when a path was supplied; with no
records, it returns the empty table whose columns are
`{Title, Date, Content}` (not the four-column schema) and writes nothing. -/
theorem scrapeErrorReturn_spec :
    ∀ (newsData : List Record) (outputFile : Option String),
      (newsData ≠ [] →
        scrapeErrorReturn newsData outputFile =
          (dataFrameOfRecords newsData,
            outputFile.map (fun p => (p, dataFrameOfRecords newsData))) ∧
        (dataFrameOfRecords newsData).rows = newsData) ∧
      (newsData = [] →
        scrapeErrorReturn newsData outputFile =
          (⟨["Title", "Date", "Content"], []⟩, none)) := by
  intro newsData outputFile
  constructor
  · intro h
    refine ⟨?_, rfl⟩
    cases newsData with
    | nil => exact absurd rfl h
    | cons a t => rfl
  · intro h
    subst h
    rfl

/-- C1 witness: the partial-save arm of `scrapeErrorReturn_spec` at one
collected record and a configured output path. -/
theorem scrapeErrorReturn_spec_witness :
    scrapeErrorReturn [[("Title", "t1"), ("Date", "d1"), ("Content", "c1")]] (some "out.csv") =
      (dataFrameOfRecords [[("Title", "t1"), ("Date", "d1"), ("Content", "c1")]],
        some ("out.csv",
          dataFrameOfRecords [[("Title", "t1"), ("Date", "d1"), ("Content", "c1")]])) :=
  ((scrapeErrorReturn_spec [[("Title", "t1"), ("Date", "d1"), ("Content", "c1")]]
    (some "out.csv")).1 (by decide)).1
